import Mathlib

/-!
Verification of the community digital-twin engine in `app.py`.

The development shallowly embeds the core of the source file:
* `assign_profile` (app.py lines 117-130): the keyword/score archetype classifier;
* `CommunityDigitalTwin.fit` (lines 112-137): builds the segment-to-archetype
  probability table (`pd.crosstab(..., normalize='index')`) and the global
  fallback distribution (`value_counts(normalize=True)`);
* `CommunityDigitalTwin.generate` (lines 139-154): parses census quantities,
  fuzzy-matches census group labels against trained segments, and samples
  synthetic individuals.

Probabilities are modelled as exact rationals (`ℚ`); the NumPy sampler is
modelled as an explicit sampling oracle passed to `generate`, with the
validation NumPy performs on the probability vector (non-negative entries
summing to 1) made explicit in `distOk`.  Python `NaN`/missing cells are
modelled as `Option.none`.
-/

namespace CDT

/-- A pandas cell: `none` models `NaN`/missing, `some s` the string form of the
stored value. -/
abbrev Cell := Option String

/-- A pandas `DataFrame`: named columns and rows of cells, each row aligned
positionally with `cols`. -/
structure DataFrame where
  cols : List String
  rows : List (List Cell)

/-- Column lookup in one row, as pandas `row[c]` does it: the outer `none`
models a `KeyError` (column absent from the schema); a missing positional
value is a `NaN` cell. -/
def DataFrame.cell (df : DataFrame) (row : List Cell) (c : String) : Option Cell :=
  match df.cols.indexOf? c with
  | some i => some ((row.get? i).join)
  | none => none

/-- Column lookup once the schema is known to contain `c` (as inside `fit`
after the column checks have passed). -/
def DataFrame.cellD (df : DataFrame) (row : List Cell) (c : String) : Cell :=
  (df.cell row c).getD none

/-- Python `str.lower` on one character, covering the ASCII and Latin-1
uppercase letters that appear in the Spanish-language data this app handles. -/
def pyLowerChar (c : Char) : Char :=
  if 65 ≤ c.toNat ∧ c.toNat ≤ 90 then Char.ofNat (c.toNat + 32)
  else if (192 ≤ c.toNat ∧ c.toNat ≤ 214) ∨ (216 ≤ c.toNat ∧ c.toNat ≤ 222) then
    Char.ofNat (c.toNat + 32)
  else c

/-- Python `str.lower`. -/
def pyLower (s : String) : String := String.mk (s.toList.map pyLowerChar)

/-- Python's substring test `needle in hay`. -/
def pyIn (needle hay : String) : Bool :=
  let n := needle.toList
  let h := hay.toList
  (List.range (h.length + 1)).any (fun i => ((h.drop i).take n.length) == n)

/-- Decimal digit test. -/
def isDigitChar (c : Char) : Bool := decide (48 ≤ c.toNat ∧ c.toNat ≤ 57)

/-- Value of a digit string. -/
def natOfDigits (l : List Char) : Nat := l.foldl (fun a c => a * 10 + (c.toNat - 48)) 0

/-- Strip leading and trailing blanks, as Python numeric coercion does. -/
def trimSpaces (l : List Char) : List Char :=
  ((l.dropWhile (· == ' ')).reverse.dropWhile (· == ' ')).reverse

/-- Parse a decimal literal (optional sign, digits, optional fractional part)
into an exact rational.  This models the successful outcomes of Python float
coercion on the numeric strings this app handles; other forms are `none`. -/
def parseRat (l : List Char) : Option ℚ :=
  let sl : Bool × List Char :=
    match l with
    | '-' :: r => (true, r)
    | '+' :: r => (false, r)
    | _ => (false, l)
  let ip := sl.2.takeWhile isDigitChar
  let rest := sl.2.dropWhile isDigitChar
  match rest with
  | [] =>
    if ip = [] then none
    else some (if sl.1 then -(natOfDigits ip : ℚ) else (natOfDigits ip : ℚ))
  | '.' :: fr =>
    if fr.all isDigitChar ∧ (ip ≠ [] ∨ fr ≠ []) then
      let v : ℚ := (natOfDigits ip : ℚ) + (natOfDigits fr : ℚ) / (10 : ℚ) ^ fr.length
      some (if sl.1 then -v else v)
    else none
  | _ => none

/-- Model of `pd.to_numeric(x, errors='coerce')` on one cell: `NaN` and
unparseable text coerce to the missing sentinel `none`. -/
def pyToNumeric (c : Cell) : Option ℚ := c.bind (fun s => parseRat (trimSpaces s.toList))

/-- Infrastructure trigger keywords (app.py line 122). -/
def kwInfra : List String := ["cancha", "luz", "baño"]

/-- Competitive trigger keywords (app.py line 123). -/
def kwCompet : List String := ["ganar", "compet", "torneo"]

/-- Social trigger keywords (app.py line 124). -/
def kwSocial : List String := ["social", "amigos"]

/-- Formative trigger keywords (app.py line 125). -/
def kwForm : List String := ["profe", "clase"]

/-- Whether any keyword of the list occurs in the text blob. -/
def hitsAny (t : String) (kws : List String) : Bool := kws.any (fun k => pyIn k t)

/-- The classifier `assign_profile` (app.py lines 117-130).  `t` is the
lowercased concatenated text blob, `npsCell` the raw score cell; the score is
coerced with `pd.to_numeric(..., errors='coerce')` and a missing score fails
both numeric comparisons, landing on `"Neutro"`. -/
def assign_profile (t : String) (npsCell : Cell) : String :=
  if hitsAny t kwInfra then "Crítico Infra"
  else if hitsAny t kwCompet then "Competitivo"
  else if hitsAny t kwSocial then "Social"
  else if hitsAny t kwForm then "Formativo"
  else
    match pyToNumeric npsCell with
    | some n => if 6 ≤ n then "Satisfecho" else if n ≤ 4 then "Detractor" else "Neutro"
    | none => "Neutro"

/-- The `Texto_Full` column (app.py line 114): text fields with `NaN` filled
by the empty string, joined by single blanks, lowercased. -/
def textoFull (df : DataFrame) (cts : List String) (row : List Cell) : String :=
  pyLower (String.intercalate " " (cts.map (fun c => (df.cellD row c).getD "")))

/-- The labeled training rows: segment cell paired with the assigned
archetype (app.py line 132). -/
def labeled (df : DataFrame) (cr cn : String) (cts : List String) : List (Cell × String) :=
  df.rows.map (fun r => (df.cellD r cr, assign_profile (textoFull df cts r) (df.cellD r cn)))

/-- Code-point order on character lists, matching how Python sorts strings. -/
def clLe : List Char → List Char → Bool
  | [], _ => true
  | _ :: _, [] => false
  | a :: as, b :: bs =>
    if a.toNat < b.toNat then true
    else if b.toNat < a.toNat then false
    else clLe as bs

/-- Code-point order on strings. -/
def strLe (a b : String) : Bool := clLe a.toList b.toList

/-- An archetype probability distribution: labels paired with probabilities. -/
abbrev Dist := List (String × ℚ)

/-- The sorted list of distinct values of a column, as `pd.crosstab` orders
its index and columns. -/
def sortedDedup (l : List String) : List String :=
  l.dedup.insertionSort (fun a b => strLe a b = true)

/-- The distinct values ordered by descending frequency, as
`value_counts` orders its index. -/
def vcKeys (l : List String) : List String :=
  l.dedup.insertionSort (fun a b => l.count b ≤ l.count a)

/-- Model of `Series.value_counts(normalize=True)` (app.py line 136). -/
def valueCounts (l : List String) : Dist :=
  (vcKeys l).map (fun v => (v, (l.count v : ℚ) / (l.length : ℚ)))

/-- The crosstab keeps only rows whose index value is not `NaN`. -/
def keptPairs (pairs : List (Cell × String)) : List (Cell × String) :=
  pairs.filter (fun p => p.1.isSome)

/-- Index of the crosstab: the sorted distinct non-`NaN` segment values. -/
def ctIndex (pairs : List (Cell × String)) : List String :=
  sortedDedup ((keptPairs pairs).filterMap Prod.fst)

/-- Columns of the crosstab: the sorted distinct archetype values. -/
def ctCols (pairs : List (Cell × String)) : List String :=
  sortedDedup ((keptPairs pairs).map Prod.snd)

/-- The archetypes observed within one segment. -/
def segProfiles (pairs : List (Cell × String)) (s : String) : List String :=
  ((keptPairs pairs).filter (fun p => decide (p.1 = some s))).map Prod.snd

/-- One row-normalized crosstab row: per column, the count divided by the
row total. -/
def normRow (cols ps : List String) : Dist :=
  cols.map (fun c => (c, (ps.count c : ℚ) / (ps.length : ℚ)))

/-- Model of `pd.crosstab(df[col_rama], df['Perfil'], normalize='index')`
(app.py line 135). -/
def crosstabNormIndex (pairs : List (Cell × String)) : List (String × Dist) :=
  (ctIndex pairs).map (fun s => (s, normRow (ctCols pairs) (segProfiles pairs s)))

/-- The trained state of `CommunityDigitalTwin` after a successful `fit`. -/
structure Model where
  profiles_prob : List (String × Dist)
  global_prob : Dist

/-- Failures the training path can signal.  `keyError` models the pandas
`KeyError` raised by a column lookup on a missing name, which is the only
failure the source can produce.  `fitError` is the named `FitError` failure
described by the spec; the source never defines or raises it, and the
constructor exists only so that statements about it can be expressed. -/
inductive PyErr
  | keyError (col : String)
  | fitError (msg : String)

/-- Model of `CommunityDigitalTwin.fit` (app.py lines 112-137).  Column
lookups happen in source order: the text columns on line 114, the score column
inside `assign_profile` on line 119 (reached only when there is at least one
row to apply it to), the segment column in the crosstab on line 135.  A
missing column propagates a pandas `KeyError`; otherwise the two probability
tables are built and the model is trained. -/
def fit (df : DataFrame) (cr cn : String) (cts : List String) : Except PyErr Model :=
  match cts.find? (fun c => !(df.cols.contains c)) with
  | some c => Except.error (PyErr.keyError c)
  | none =>
    if !df.rows.isEmpty && !(df.cols.contains cn) then Except.error (PyErr.keyError cn)
    else if !(df.cols.contains cr) then Except.error (PyErr.keyError cr)
    else
      Except.ok
        { profiles_prob := crosstabNormIndex (labeled df cr cn cts)
          global_prob := valueCounts ((labeled df cr cn cts).map Prod.snd) }

/-- Python `str(x)` on a cell: `str` of `NaN` is the text `"nan"`. -/
def pyStr (c : Cell) : String := c.getD "nan"

/-- Quantity cleanup (app.py line 145): every `'.'` and `','` character is
removed before numeric coercion. -/
def stripSeps (s : String) : List Char :=
  s.toList.filter (fun c => !(c == '.') && !(c == ','))

/-- Model of `int(float(str(x).replace('.','').replace(',','')))`
(app.py line 145): after separator removal the remaining text must be an
optionally signed digit string; anything else raises inside the loop's
`try` and the entry is skipped. -/
def parsePyQty (s : String) : Option Int :=
  let l := trimSpaces (stripSeps s)
  let sl : Bool × List Char :=
    match l with
    | '-' :: r => (true, r)
    | '+' :: r => (false, r)
    | _ => (false, l)
  if sl.2 ≠ [] ∧ sl.2.all isDigitChar then
    some (if sl.1 then -(natOfDigits sl.2 : Int) else (natOfDigits sl.2 : Int))
  else none

/-- Segment selection (app.py lines 148-149): the trained segments whose
lowercased label is a substring of the lowercased group label, in the trained
table's index order; the first match's row is used, and the global fallback
when there is none. -/
def selectDist (m : Model) (group : String) : Dist :=
  match m.profiles_prob.filter (fun p => pyIn (pyLower p.1) (pyLower group)) with
  | [] => m.global_prob
  | p :: _ => p.2

/-- The validation `np.random.choice` performs on its probability vector
`p`: entries non-negative and summing to one.  A vector failing it raises,
which the loop's bare `except` turns into a skipped entry. -/
def distOk (d : Dist) : Bool :=
  ((d.map Prod.snd).sum == 1) && d.all (fun p => decide (0 ≤ p.2))

/-- One synthetic individual of the generated population (app.py line 151). -/
structure Ind where
  group : String
  profile : String
deriving DecidableEq

/-- One loop iteration of `generate` (app.py lines 142-152): look up the
group and quantity cells, parse the quantity, and when it is positive draw
that many samples from the selected distribution; every failure path inside
the `try` contributes nothing. -/
def genEntry (m : Model) (df : DataFrame) (cg cq : String)
    (sample : Dist → Nat → String) (row : List Cell) : List Ind :=
  match df.cell row cg, df.cell row cq with
  | some gcell, some qcell =>
    (match parsePyQty (pyStr qcell) with
    | some q =>
      if 0 < q then
        if distOk (selectDist m (pyStr gcell)) then
          (List.range q.toNat).map
            (fun k => { group := pyStr gcell, profile := sample (selectDist m (pyStr gcell)) k })
        else []
      else []
    | none => [])
  | _, _ => []

/-- Model of `CommunityDigitalTwin.generate` (app.py lines 139-154): `none`
models the `return None` taken when the model was never trained
(`profiles_prob is None`, line 140); otherwise the per-entry populations are
concatenated in census order. -/
def generate (mo : Option Model) (df : DataFrame) (cg cq : String)
    (sample : Dist → Nat → String) : Option (List Ind) :=
  match mo with
  | none => none
  | some m => some ((df.rows.map (genEntry m df cg cq sample)).flatten)

/-- The analysis run (app.py lines 227-228): `fit` then `generate`; an
exception escaping `fit` aborts the run before generation. -/
def runAnalysis (df : DataFrame) (cr cn : String) (cts : List String)
    (univ : DataFrame) (cg cq : String) (sample : Dist → Nat → String) :
    Except PyErr (Option (List Ind)) :=
  match fit df cr cn cts with
  | Except.error e => Except.error e
  | Except.ok m => Except.ok (generate (some m) univ cg cq sample)

/-- Whether a training outcome is the spec's named `FitError`. -/
def isNamedFitError : Except PyErr Model → Bool
  | Except.error (PyErr.fitError _) => true
  | _ => false

/-- Whether a training outcome is a pandas `KeyError` on the given column. -/
def isKeyErrorOn (e : Except PyErr Model) (c : String) : Bool :=
  match e with
  | Except.error (PyErr.keyError c') => c' == c
  | _ => false

/-- Provenance tag of the augmentation-mode output ("real" versus
"synthetic"). -/
inductive Provenance
  | real
  | synthetic
deriving DecidableEq

/-- One individual of the augmentation-mode population: a labeled respondent
with its provenance tag. -/
structure AugIndividual where
  segment : String
  profile : String
  origin : Provenance
deriving DecidableEq

/-- Modelled from the spec: the augmentation-mode generation entry point is
code of this repository that is not present under `src/` (the spec describes
it as a variant of `generate` in near-duplicate files).  Following the spec's
words, it computes the shortfall `total − sample_size`, draws that many new
individuals using the global segment distribution of the real sample combined
with the per-segment archetype lookup of the shared trained model, tags them
"synthetic", and concatenates them after the real respondents. -/
def generate_augmented (m : Model) (realSample : List AugIndividual) (total : Nat)
    (sampleSeg : Dist → Nat → String) (sampleProf : Dist → Nat → String) :
    List AugIndividual :=
  realSample ++
    (List.range (total - realSample.length)).map (fun k =>
      let s := sampleSeg (valueCounts (realSample.map (fun r => r.segment))) k
      { segment := s, profile := sampleProf (selectDist m s) k
        origin := Provenance.synthetic })

/-! ### Concrete data used by witnesses and concrete theorems -/

/-- A tiny concrete survey: two respondents, segments `"Fútbol"` and
`"Natación"`, whose text triggers the competitive and the social rule. -/
def dfC3 : DataFrame :=
  { cols := ["Rama", "NPS", "Texto"]
    rows := [[some "Fútbol", some "8", some "me gusta ganar"],
             [some "Natación", some "3", some "los amigos"]] }

/-- The model trained on `dfC3`. -/
def mC3 : Model :=
  match fit dfC3 "Rama" "NPS" ["Texto"] with
  | Except.ok m => m
  | Except.error _ => { profiles_prob := [], global_prob := [] }

/-- The trained row of a segment, read back from the table by exact label. -/
def segRow (m : Model) (s : String) : Dist :=
  ((m.profiles_prob.find? (fun p => p.1 == s)).map Prod.snd).getD []

/-- A concrete census: one valid entry, one unparseable quantity, one zero
quantity. -/
def univC2 : DataFrame :=
  { cols := ["Grupo", "Cantidad"]
    rows := [[some "Fútbol Infantil", some "3"],
             [some "Escalada", some "abc"],
             [some "Yoga", some "0"]] }

/-- A concrete census whose quantity texts carry decimal and thousands
separators. -/
def univC10 : DataFrame :=
  { cols := ["Grupo", "Cantidad"]
    rows := [[some "Fútbol Infantil", some "10.5"],
             [some "Zumba", some "1,000"]] }

/-- A concrete census in which every entry is skipped. -/
def univC8 : DataFrame :=
  { cols := ["Grupo", "Cantidad"]
    rows := [[some "Escalada", some "abc"],
             [some "Yoga", some "0"]] }

/-- A concrete survey table with no `"NPS"` column. -/
def dfC7 : DataFrame :=
  { cols := ["Rama", "Texto"]
    rows := [[some "A", some "hola"]] }

/-- A concrete survey table with no `"Rama"` column. -/
def dfC7b : DataFrame :=
  { cols := ["NPS", "Texto"]
    rows := [[some "8", some "hola"]] }

/-- A fixed sampling oracle for witnesses. -/
def wSample : Dist → Nat → String := fun _ _ => "Neutro"

/-- A concrete real sample for the augmentation-mode witness. -/
def realW : List AugIndividual :=
  [{ segment := "Fútbol", profile := "Competitivo", origin := Provenance.real },
   { segment := "Natación", profile := "Social", origin := Provenance.real }]

/-! ### Counting lemmas behind the probability-table invariant -/

/-- Summing the indicator of `a` over a list not containing `a` gives `0`. -/
lemma sum_ind_zero (a : String) (cols : List String) (ha : a ∉ cols) :
    (cols.map (fun c => if a == c then (1 : ℕ) else 0)).sum = 0 := by
  induction cols with
  | nil => simp
  | cons c cs ih =>
    have hac : ¬a = c := fun h => ha (h ▸ List.mem_cons_self c cs)
    simp only [List.map_cons, List.sum_cons]
    rw [if_neg (by simpa using hac), ih (fun h => ha (List.mem_cons_of_mem _ h))]

/-- Summing the indicator of `a` over a duplicate-free list containing `a`
gives `1`. -/
lemma sum_ind_one (a : String) (cols : List String) (hnd : cols.Nodup)
    (ha : a ∈ cols) :
    (cols.map (fun c => if a == c then (1 : ℕ) else 0)).sum = 1 := by
  induction cols with
  | nil => cases ha
  | cons c cs ih =>
    obtain ⟨hcm, hnd'⟩ := List.nodup_cons.mp hnd
    simp only [List.map_cons, List.sum_cons]
    rcases List.mem_cons.mp ha with h | h
    · subst h
      rw [if_pos (by simp), sum_ind_zero a cs hcm]
    · have hac : ¬a = c := fun he => hcm (he ▸ h)
      rw [if_neg (by simpa using hac), ih hnd' h, Nat.zero_add]

/-- Counting every value of a duplicate-free complete column set recovers the
length of the counted list. -/
lemma sum_counts_nat (cols ps : List String) (hnd : cols.Nodup)
    (hc : ∀ x ∈ ps, x ∈ cols) :
    (cols.map (fun c => ps.count c)).sum = ps.length := by
  induction ps with
  | nil => simp
  | cons a ps ih =>
    have ha : a ∈ cols := hc a (List.mem_cons_self a ps)
    have hps : ∀ x ∈ ps, x ∈ cols := fun x hx => hc x (List.mem_cons_of_mem a hx)
    simp only [List.count_cons]
    rw [List.sum_map_add, ih hps, sum_ind_one a cols hnd ha, List.length_cons]

/-- The rational form: a row of counts divided by the total sums to `1`. -/
lemma sum_normRow (cols ps : List String) (hnd : cols.Nodup)
    (hc : ∀ x ∈ ps, x ∈ cols) (hne : ps ≠ []) :
    ((normRow cols ps).map Prod.snd).sum = 1 := by
  have hlen : ((ps.length : ℕ) : ℚ) ≠ 0 := by
    exact_mod_cast fun h => hne (List.length_eq_zero.mp h)
  unfold normRow
  rw [List.map_map]
  have hfun : (Prod.snd ∘ fun c => (c, (ps.count c : ℚ) / (ps.length : ℚ)))
      = fun c => ((ps.count c : ℕ) : ℚ) * (((ps.length : ℕ) : ℚ))⁻¹ := by
    funext c
    simp [div_eq_mul_inv]
  rw [hfun, List.sum_map_mul_right]
  have hcast : (cols.map fun c => ((ps.count c : ℕ) : ℚ))
      = (cols.map fun c => ps.count c).map Nat.cast := by
    rw [List.map_map]
    rfl
  rw [hcast, ← Nat.cast_list_sum, sum_counts_nat cols ps hnd hc,
    mul_inv_cancel₀ hlen]

/-- Every entry of a normalized row is non-negative. -/
lemma normRow_nonneg (cols ps : List String) : ∀ p ∈ normRow cols ps, 0 ≤ p.2 := by
  intro p hp
  rcases List.mem_map.mp hp with ⟨c, _, rfl⟩
  exact div_nonneg (Nat.cast_nonneg _) (Nat.cast_nonneg _)

/-- Membership is unchanged by sorting and deduplication. -/
lemma mem_sortedDedup {a : String} {l : List String} :
    a ∈ sortedDedup l ↔ a ∈ l := by
  unfold sortedDedup
  rw [(List.perm_insertionSort _ l.dedup).mem_iff, List.mem_dedup]

/-- Sorted deduplication yields no duplicates. -/
lemma nodup_sortedDedup (l : List String) : (sortedDedup l).Nodup := by
  unfold sortedDedup
  exact ((List.perm_insertionSort _ l.dedup).nodup_iff).mpr (List.nodup_dedup l)

/-- Membership is unchanged by the frequency ordering of `value_counts`. -/
lemma mem_vcKeys {a : String} {l : List String} : a ∈ vcKeys l ↔ a ∈ l := by
  unfold vcKeys
  rw [(List.perm_insertionSort _ l.dedup).mem_iff, List.mem_dedup]

/-- The `value_counts` index has no duplicates. -/
lemma nodup_vcKeys (l : List String) : (vcKeys l).Nodup := by
  unfold vcKeys
  exact ((List.perm_insertionSort _ l.dedup).nodup_iff).mpr (List.nodup_dedup l)

/-- The global fallback distribution of a non-empty sample sums to `1`. -/
lemma valueCounts_sum (l : List String) (hne : l ≠ []) :
    ((valueCounts l).map Prod.snd).sum = 1 := by
  have hvc : valueCounts l = normRow (vcKeys l) l := rfl
  rw [hvc]
  exact sum_normRow _ _ (nodup_vcKeys l) (fun x hx => mem_vcKeys.mpr hx) hne

/-- The global fallback distribution has non-negative entries. -/
lemma valueCounts_nonneg (l : List String) : ∀ p ∈ valueCounts l, 0 ≤ p.2 := by
  have hvc : valueCounts l = normRow (vcKeys l) l := rfl
  rw [hvc]
  exact normRow_nonneg _ _

/-- Every row of the row-normalized crosstab sums to `1` and has non-negative
entries. -/
lemma crosstab_row_sum (pairs : List (Cell × String)) (s : String) (d : Dist)
    (hmem : (s, d) ∈ crosstabNormIndex pairs) :
    (d.map Prod.snd).sum = 1 ∧ ∀ p ∈ d, 0 ≤ p.2 := by
  unfold crosstabNormIndex at hmem
  rcases List.mem_map.mp hmem with ⟨s', hs', heq⟩
  have hseq : s' = s := congrArg Prod.fst heq
  subst hseq
  have hd : d = normRow (ctCols pairs) (segProfiles pairs s') :=
    (congrArg Prod.snd heq).symm
  have hs : s' ∈ (keptPairs pairs).filterMap Prod.fst := by
    have := hs'
    unfold ctIndex at this
    exact mem_sortedDedup.mp this
  rcases List.mem_filterMap.mp hs with ⟨p, hp, hp1⟩
  have hne : segProfiles pairs s' ≠ [] := by
    unfold segProfiles
    intro hnil
    have hpf : p ∈ (keptPairs pairs).filter (fun q => decide (q.1 = some s')) :=
      List.mem_filter.mpr ⟨hp, by simp [hp1]⟩
    rw [List.map_eq_nil_iff] at hnil
    rw [hnil] at hpf
    cases hpf
  have hcomplete : ∀ x ∈ segProfiles pairs s', x ∈ ctCols pairs := by
    intro x hx
    unfold segProfiles at hx
    rcases List.mem_map.mp hx with ⟨q, hq, rfl⟩
    have hqk : q ∈ keptPairs pairs := (List.mem_filter.mp hq).1
    unfold ctCols
    exact mem_sortedDedup.mpr (List.mem_map.mpr ⟨q, hqk, rfl⟩)
  refine ⟨?_, ?_⟩
  · rw [hd]
    exact sum_normRow _ _ (by unfold ctCols; exact nodup_sortedDedup _) hcomplete hne
  · rw [hd]
    exact normRow_nonneg _ _

/-- What a successful `fit` trains: the row-normalized crosstab and the
global `value_counts`. -/
lemma fit_ok_eq (df : DataFrame) (cr cn : String) (cts : List String) (m : Model)
    (h : fit df cr cn cts = Except.ok m) :
    m.profiles_prob = crosstabNormIndex (labeled df cr cn cts)
      ∧ m.global_prob = valueCounts ((labeled df cr cn cts).map Prod.snd) := by
  unfold fit at h
  split at h
  · exact absurd h (by simp)
  · split at h
    · exact absurd h (by simp)
    · split at h
      · exact absurd h (by simp)
      · injection h with h'
        rw [← h']
        exact ⟨rfl, rfl⟩

/-- Training on a non-empty sample labels a non-empty list. -/
lemma labeled_ne (df : DataFrame) (cr cn : String) (cts : List String)
    (hrows : df.rows ≠ []) : labeled df cr cn cts ≠ [] := by
  unfold labeled
  simpa using hrows

/-! ### Lemmas on segment selection and sampling -/

/-- Taking the head of a filtered list is finding the first element
satisfying the predicate. -/
lemma filter_head_eq_find (l : List (String × Dist)) (p : String × Dist → Bool)
    (d : Dist) :
    (match l.filter p with
      | [] => d
      | q :: _ => q.2)
    = (match l.find? p with
      | some q => q.2
      | none => d) := by
  induction l with
  | nil => rfl
  | cons a l ih =>
    by_cases ha : p a = true
    · rw [List.filter_cons_of_pos ha, List.find?_cons_of_pos _ ha]
    · rw [List.filter_cons_of_neg (by simpa using ha), List.find?_cons_of_neg _ (by simpa using ha)]
      exact ih

/-- A distribution summing to one with non-negative entries passes the
sampler's validation. -/
lemma distOk_true_of (d : Dist) (h1 : (d.map Prod.snd).sum = 1)
    (h2 : ∀ p ∈ d, 0 ≤ p.2) : distOk d = true := by
  unfold distOk
  rw [Bool.and_eq_true]
  refine ⟨beq_iff_eq.mpr h1, List.all_eq_true.mpr ?_⟩
  intro p hp
  exact decide_eq_true (h2 p hp)

/-- Whatever group label is looked up, a model trained by `fit` on a
non-empty sample hands the sampler a valid probability vector: the selected
distribution is either a crosstab row or the global fallback. -/
lemma selectDist_ok (df : DataFrame) (cr cn : String) (cts : List String)
    (m : Model) (hfit : fit df cr cn cts = Except.ok m) (hrows : df.rows ≠ [])
    (g : String) : distOk (selectDist m g) = true := by
  obtain ⟨hp, hg⟩ := fit_ok_eq df cr cn cts m hfit
  unfold selectDist
  split
  · rename_i hnil
    rw [hg]
    have hne : (labeled df cr cn cts).map Prod.snd ≠ [] := by
      simpa using labeled_ne df cr cn cts hrows
    exact distOk_true_of _ (valueCounts_sum _ hne) (valueCounts_nonneg _)
  · rename_i p rest hcons
    have hpm : p ∈ m.profiles_prob := by
      have : p ∈ m.profiles_prob.filter
          (fun q => pyIn (pyLower q.1) (pyLower g)) := by
        rw [hcons]
        exact List.mem_cons_self p rest
      exact (List.mem_filter.mp this).1
    have hmem : (p.1, p.2) ∈ crosstabNormIndex (labeled df cr cn cts) := by
      rw [← hp]
      simpa using hpm
    obtain ⟨h1, h2⟩ := crosstab_row_sum _ _ _ hmem
    exact distOk_true_of _ h1 h2

/-- A census entry whose quantity parses positively and whose selected
distribution passes validation generates exactly its quantity of clones,
each tagged with the entry's group label. -/
lemma genEntry_count_eq (m : Model) (df : DataFrame) (cg cq : String)
    (sample : Dist → Nat → String) (row : List Cell) (gcell qcell : Cell)
    (q : Int) (hg : df.cell row cg = some gcell) (hq : df.cell row cq = some qcell)
    (hp : parsePyQty (pyStr qcell) = some q) (hpos : 0 < q)
    (hok : distOk (selectDist m (pyStr gcell)) = true) :
    genEntry m df cg cq sample row
      = (List.range q.toNat).map
          (fun k => { group := pyStr gcell
                      profile := sample (selectDist m (pyStr gcell)) k }) := by
  unfold genEntry
  rw [hg, hq]
  simp only [hp, if_pos hpos, hok, if_true]

/-- A census entry whose quantity text does not coerce contributes no
individuals (the failure stays inside the loop's `try`). -/
lemma genEntry_skip_unparseable (m : Model) (df : DataFrame) (cg cq : String)
    (sample : Dist → Nat → String) (row : List Cell) (qcell : Cell)
    (hq : df.cell row cq = some qcell) (hp : parsePyQty (pyStr qcell) = none) :
    genEntry m df cg cq sample row = [] := by
  unfold genEntry
  cases hg : df.cell row cg with
  | none => rfl
  | some gcell =>
    rw [hq]
    simp only [hp]

/-- A census entry with a non-positive quantity contributes no individuals. -/
lemma genEntry_skip_nonpos (m : Model) (df : DataFrame) (cg cq : String)
    (sample : Dist → Nat → String) (row : List Cell) (qcell : Cell) (q : Int)
    (hq : df.cell row cq = some qcell) (hp : parsePyQty (pyStr qcell) = some q)
    (hle : q ≤ 0) :
    genEntry m df cg cq sample row = [] := by
  unfold genEntry
  cases hg : df.cell row cg with
  | none => rfl
  | some gcell =>
    rw [hq]
    simp only [hp, if_neg (not_lt.mpr hle)]

/-- Flattening a list of empty lists gives the empty list. -/
lemma flatten_eq_nil_of_all_nil (l : List (List Ind)) (h : ∀ x ∈ l, x = []) :
    l.flatten = [] := by
  induction l with
  | nil => rfl
  | cons a l ih =>
    rw [List.flatten_cons, h a (List.mem_cons_self a l),
      ih (fun x hx => h x (List.mem_cons_of_mem _ hx))]
    rfl

/-! ### Claims -/

/-- C1: for every non-empty training sample on which `fit` succeeds, every
row of the trained segment→archetype table `profiles_prob` sums to `1`
exactly (hence within the `1e-9` tolerance, stated as the second conjunct)
with non-negative entries, and the global fallback `global_prob` does too. -/
theorem fit_distributions_sum_to_one
    (df : DataFrame) (cr cn : String) (cts : List String) (m : Model)
    (hfit : fit df cr cn cts = Except.ok m) (hrows : df.rows ≠ []) :
    (∀ s d, (s, d) ∈ m.profiles_prob →
        (d.map Prod.snd).sum = 1
        ∧ |(d.map Prod.snd).sum - 1| ≤ 1 / 1000000000
        ∧ ∀ p ∈ d, 0 ≤ p.2)
    ∧ ((m.global_prob.map Prod.snd).sum = 1
        ∧ |(m.global_prob.map Prod.snd).sum - 1| ≤ 1 / 1000000000
        ∧ ∀ p ∈ m.global_prob, 0 ≤ p.2) := by
  obtain ⟨hp, hg⟩ := fit_ok_eq df cr cn cts m hfit
  constructor
  · intro s d hmem
    rw [hp] at hmem
    obtain ⟨h1, h2⟩ := crosstab_row_sum _ _ _ hmem
    refine ⟨h1, ?_, h2⟩
    rw [h1]
    norm_num
  · have hne : (labeled df cr cn cts).map Prod.snd ≠ [] := by
      simpa using labeled_ne df cr cn cts hrows
    rw [hg]
    refine ⟨valueCounts_sum _ hne, ?_, valueCounts_nonneg _⟩
    rw [valueCounts_sum _ hne]
    norm_num

/-- Witness for C1 on the concrete training sample `dfC3`. -/
theorem fit_distributions_sum_to_one_witness :
    ((segRow mC3 "Fútbol").map Prod.snd).sum = 1
    ∧ ((mC3.global_prob).map Prod.snd).sum = 1 := by
  have h := fit_distributions_sum_to_one dfC3 "Rama" "NPS" ["Texto"] mC3 rfl
    (by decide)
  have hl : mC3.profiles_prob
      = ("Fútbol", segRow mC3 "Fútbol") :: [("Natación", segRow mC3 "Natación")] := rfl
  have hmem : ("Fútbol", segRow mC3 "Fútbol") ∈ mC3.profiles_prob := by
    rw [hl]
    exact List.mem_cons_self _ _
  exact ⟨(h.1 "Fútbol" (segRow mC3 "Fútbol") hmem).1, h.2.1⟩

/-- C4: the classifier is total and deterministic: every (text, score) input
is assigned exactly one label, that label belongs to the fixed configured
set, and any call on identical inputs returns the same label. -/
theorem assign_profile_total_deterministic (t : String) (c : Cell) :
    ∃ l, assign_profile t c = l
      ∧ l ∈ ["Crítico Infra", "Competitivo", "Social", "Formativo",
              "Satisfecho", "Detractor", "Neutro"]
      ∧ ∀ l', assign_profile t c = l' → l' = l := by
  refine ⟨assign_profile t c, rfl, ?_, fun l' h => h.symm⟩
  unfold assign_profile
  split_ifs <;> try simp
  rcases hn : pyToNumeric c with _ | n
  · simp
  · by_cases h6 : 6 ≤ n
    · simp [h6]
    · by_cases h4 : n ≤ 4
      · simp [h6, h4]
      · simp [h6, h4]

/-- C5: the infrastructure rule is checked before the competitive rule, so a
blob triggering both is classified infrastructure-critical whatever the
score. -/
theorem infra_overrides_competitive (t : String) (c : Cell)
    (hinfra : hitsAny t kwInfra = true) (_hcompet : hitsAny t kwCompet = true) :
    assign_profile t c = "Crítico Infra" := by
  unfold assign_profile
  rw [if_pos hinfra]

/-- Witness for C5 at the spec's example blob and score 8. -/
theorem infra_overrides_competitive_witness :
    hitsAny (pyLower "la cancha sin luz pero buena competencia") kwInfra = true
    ∧ hitsAny (pyLower "la cancha sin luz pero buena competencia") kwCompet = true
    ∧ assign_profile (pyLower "la cancha sin luz pero buena competencia") (some "8")
        = "Crítico Infra" :=
  ⟨by decide, by decide,
    infra_overrides_competitive _ (some "8") (by decide) (by decide)⟩

/-- C6: when no keyword rule fires, the classifier falls back to the score:
at least 6 is `"Satisfecho"`, at most 4 is `"Detractor"`, and anything else
(including a missing or unparseable score) is `"Neutro"`. -/
theorem score_only_fallback (t : String) (c : Cell)
    (h1 : hitsAny t kwInfra = false) (h2 : hitsAny t kwCompet = false)
    (h3 : hitsAny t kwSocial = false) (h4 : hitsAny t kwForm = false) :
    assign_profile t c
      = match pyToNumeric c with
        | some n => if 6 ≤ n then "Satisfecho" else if n ≤ 4 then "Detractor" else "Neutro"
        | none => "Neutro" := by
  unfold assign_profile
  rw [if_neg (by simp [h1]), if_neg (by simp [h2]), if_neg (by simp [h3]),
    if_neg (by simp [h4])]

/-- Witness for C6 at the spec's examples: scores 7, 3, 5 and a missing
score on the empty blob. -/
theorem score_only_fallback_witness :
    hitsAny "" kwInfra = false
    ∧ assign_profile "" (some "7") = "Satisfecho"
    ∧ assign_profile "" (some "3") = "Detractor"
    ∧ assign_profile "" (some "5") = "Neutro"
    ∧ assign_profile "" none = "Neutro" :=
  ⟨by decide,
    (score_only_fallback "" (some "7") (by decide) (by decide) (by decide)
      (by decide)).trans (by decide),
    (score_only_fallback "" (some "3") (by decide) (by decide) (by decide)
      (by decide)).trans (by decide),
    (score_only_fallback "" (some "5") (by decide) (by decide) (by decide)
      (by decide)).trans (by decide),
    (score_only_fallback "" none (by decide) (by decide) (by decide)
      (by decide)).trans (by decide)⟩

/-- C2: on a model trained by `fit` on a non-empty sample, `generate`
processes every census entry: an entry whose quantity parses to `Q > 0` and
whose group and quantity cells resolve produces exactly `Q` individuals
tagged with the entry's group label; an unparseable or non-positive quantity
produces none; and `generate` completes, returning the concatenation of all
per-entry populations. -/
theorem generate_respects_quantities
    (df : DataFrame) (cr cn : String) (cts : List String) (m : Model)
    (hfit : fit df cr cn cts = Except.ok m) (hrows : df.rows ≠ [])
    (univ : DataFrame) (cg cq : String) (sample : Dist → Nat → String) :
    generate (some m) univ cg cq sample
      = some ((univ.rows.map (genEntry m univ cg cq sample)).flatten)
    ∧ ∀ row ∈ univ.rows, ∀ qcell, univ.cell row cq = some qcell →
        ((∀ gcell (q : Int), univ.cell row cg = some gcell →
            parsePyQty (pyStr qcell) = some q → 0 < q →
            (genEntry m univ cg cq sample row).length = q.toNat
            ∧ ∀ ind ∈ genEntry m univ cg cq sample row, ind.group = pyStr gcell)
        ∧ (parsePyQty (pyStr qcell) = none →
            genEntry m univ cg cq sample row = [])
        ∧ ∀ q : Int, parsePyQty (pyStr qcell) = some q → q ≤ 0 →
            genEntry m univ cg cq sample row = []) := by
  refine ⟨rfl, ?_⟩
  intro row _ qcell hq
  refine ⟨?_, ?_, ?_⟩
  · intro gcell q hg hp hpos
    have hok := selectDist_ok df cr cn cts m hfit hrows (pyStr gcell)
    have he := genEntry_count_eq m univ cg cq sample row gcell qcell q hg hq hp
      hpos hok
    constructor
    · rw [he, List.length_map, List.length_range]
    · intro ind hind
      rw [he] at hind
      rcases List.mem_map.mp hind with ⟨k, _, rfl⟩
      rfl
  · exact genEntry_skip_unparseable m univ cg cq sample row qcell hq
  · intro q hp hle
    exact genEntry_skip_nonpos m univ cg cq sample row qcell q hq hp hle

/-- Witness for C2 on the concrete census `univC2`: quantity `"3"` produces
3 individuals, `"abc"` and `"0"` produce none, and the run completes. -/
theorem generate_respects_quantities_witness :
    (genEntry mC3 univC2 "Grupo" "Cantidad" wSample
        [some "Fútbol Infantil", some "3"]).length = 3
    ∧ genEntry mC3 univC2 "Grupo" "Cantidad" wSample [some "Escalada", some "abc"] = []
    ∧ genEntry mC3 univC2 "Grupo" "Cantidad" wSample [some "Yoga", some "0"] = []
    ∧ generate (some mC3) univC2 "Grupo" "Cantidad" wSample
        = some ((univC2.rows.map (genEntry mC3 univC2 "Grupo" "Cantidad" wSample)).flatten) := by
  have h := generate_respects_quantities dfC3 "Rama" "NPS" ["Texto"] mC3 rfl
    (by decide) univC2 "Grupo" "Cantidad" wSample
  refine ⟨?_, ?_, ?_, h.1⟩
  · exact ((h.2 [some "Fútbol Infantil", some "3"] (by decide) (some "3") rfl).1
      (some "Fútbol Infantil") 3 rfl (by decide) (by decide)).1
  · exact (h.2 [some "Escalada", some "abc"] (by decide) (some "abc") rfl).2.1
      (by decide)
  · exact (h.2 [some "Yoga", some "0"] (by decide) (some "0") rfl).2.2 0
      (by decide) (by decide)

/-- C3: segment lookup for a census group uses the first trained segment, in
the trained table's index order, whose lowercased label is a substring of the
lowercased group label, and the global fallback when there is none; in
particular on the model trained from `dfC3` the group `"Fútbol Infantil"`
resolves to the `"Fútbol"` row, not to the global fallback. -/
theorem segment_match_first_or_global :
    (∀ (m : Model) (g : String),
        selectDist m g
          = match m.profiles_prob.find? (fun p => pyIn (pyLower p.1) (pyLower g)) with
            | some p => p.2
            | none => m.global_prob)
    ∧ mC3.profiles_prob.map Prod.fst = ["Fútbol", "Natación"]
    ∧ (mC3.profiles_prob.find?
        (fun p => pyIn (pyLower p.1) (pyLower "Fútbol Infantil"))).map Prod.fst
        = some "Fútbol"
    ∧ selectDist mC3 "Fútbol Infantil" = segRow mC3 "Fútbol"
    ∧ selectDist mC3 "Fútbol Infantil" ≠ mC3.global_prob := by
  refine ⟨?_, by decide, by decide, rfl, ?_⟩
  · intro m g
    unfold selectDist
    exact filter_head_eq_find _ _ _
  · intro h
    have e1 : selectDist mC3 "Fútbol Infantil"
        = [("Competitivo", ((1 : ℕ) : ℚ) / ((1 : ℕ) : ℚ)),
           ("Social", ((0 : ℕ) : ℚ) / ((1 : ℕ) : ℚ))] := rfl
    have e2 : mC3.global_prob
        = [("Competitivo", ((1 : ℕ) : ℚ) / ((2 : ℕ) : ℚ)),
           ("Social", ((1 : ℕ) : ℚ) / ((2 : ℕ) : ℚ))] := rfl
    rw [e1, e2] at h
    simp only [List.cons.injEq, Prod.mk.injEq] at h
    have hq := h.1.2
    norm_num at hq

/-- C7 counterexample: at the concrete input `dfC7` (score column `"NPS"`
absent), `fit` does fail, but the failure is the propagated pandas
`KeyError`, not the spec's named `FitError` — no such error exists anywhere
in the source. -/
theorem fit_keyerror_not_named_fiterror :
    isNamedFitError (fit dfC7 "Rama" "NPS" ["Texto"]) = false
    ∧ (fit dfC7 "Rama" "NPS" ["Texto"]).isOk = false
    ∧ isKeyErrorOn (fit dfC7 "Rama" "NPS" ["Texto"]) "NPS" = true :=
  ⟨rfl, rfl, rfl⟩

/-- C7 amended: when the score field (or, with the score field present, the
segment field) is missing from the schema, `fit` fails by propagating a
pandas `KeyError` naming the missing column — an exception to the caller,
not a silent empty model — and the run never reaches generation. -/
theorem fit_fails_keyerror_on_missing_field
    (df : DataFrame) (cr cn : String) (cts : List String)
    (univ : DataFrame) (cg cq : String) (sample : Dist → Nat → String)
    (hts : ∀ c ∈ cts, c ∈ df.cols) :
    (df.rows ≠ [] → cn ∉ df.cols →
        fit df cr cn cts = Except.error (PyErr.keyError cn)
        ∧ runAnalysis df cr cn cts univ cg cq sample
            = Except.error (PyErr.keyError cn))
    ∧ (cn ∈ df.cols → cr ∉ df.cols →
        fit df cr cn cts = Except.error (PyErr.keyError cr)
        ∧ runAnalysis df cr cn cts univ cg cq sample
            = Except.error (PyErr.keyError cr)) := by
  have hfind : cts.find? (fun c => !(df.cols.contains c)) = none := by
    rw [List.find?_eq_none]
    intro c hc
    simpa using hts c hc
  constructor
  · intro hrows hcn
    have hfe : fit df cr cn cts = Except.error (PyErr.keyError cn) := by
      unfold fit
      rw [hfind, if_pos (by simp [hrows, hcn])]
    refine ⟨hfe, ?_⟩
    unfold runAnalysis
    rw [hfe]
  · intro hcn hcr
    have hfe : fit df cr cn cts = Except.error (PyErr.keyError cr) := by
      unfold fit
      rw [hfind, if_neg (by simp [hcn]), if_pos (by simp [hcr])]
    refine ⟨hfe, ?_⟩
    unfold runAnalysis
    rw [hfe]

/-- Witness for the amended C7: both missing-column shapes on concrete
tables, each aborting the run before generation. -/
theorem fit_fails_keyerror_on_missing_field_witness :
    fit dfC7 "Rama" "NPS" ["Texto"] = Except.error (PyErr.keyError "NPS")
    ∧ runAnalysis dfC7 "Rama" "NPS" ["Texto"] univC2 "Grupo" "Cantidad" wSample
        = Except.error (PyErr.keyError "NPS")
    ∧ fit dfC7b "Rama" "NPS" ["Texto"] = Except.error (PyErr.keyError "Rama")
    ∧ runAnalysis dfC7b "Rama" "NPS" ["Texto"] univC2 "Grupo" "Cantidad" wSample
        = Except.error (PyErr.keyError "Rama") := by
  have h1 := (fit_fails_keyerror_on_missing_field dfC7 "Rama" "NPS" ["Texto"]
    univC2 "Grupo" "Cantidad" wSample (by decide)).1 (by decide) (by decide)
  have h2 := (fit_fails_keyerror_on_missing_field dfC7b "Rama" "NPS" ["Texto"]
    univC2 "Grupo" "Cantidad" wSample (by decide)).2 (by decide) (by decide)
  exact ⟨h1.1, h1.2, h2.1, h2.2⟩

/-- C8 counterexample: at the concrete input `univC8`, `generate` on the
never-trained model returns the `None` sentinel, which is not an empty
population table. -/
theorem generate_untrained_is_none_not_empty :
    generate none univC8 "Grupo" "Cantidad" wSample = none
    ∧ generate none univC8 "Grupo" "Cantidad" wSample ≠ some ([] : List Ind) :=
  ⟨rfl, by decide⟩

/-- C8 amended: `generate` on a never-trained model returns the `None`
sentinel (no error is raised, but no empty table is produced either), and on
a trained model whose every census entry is skipped it returns the empty
population table. -/
theorem generate_untrained_none_skipped_empty
    (univ : DataFrame) (cg cq : String) (sample : Dist → Nat → String) :
    generate none univ cg cq sample = none
    ∧ ∀ m : Model, (∀ row ∈ univ.rows, genEntry m univ cg cq sample row = []) →
        generate (some m) univ cg cq sample = some [] := by
  refine ⟨rfl, ?_⟩
  intro m hall
  have hgen : generate (some m) univ cg cq sample
      = some ((univ.rows.map (genEntry m univ cg cq sample)).flatten) := rfl
  have hnil : (univ.rows.map (genEntry m univ cg cq sample)).flatten = [] := by
    apply flatten_eq_nil_of_all_nil
    intro x hx
    rcases List.mem_map.mp hx with ⟨row, hrow, rfl⟩
    exact hall row hrow
  rw [hgen, hnil]

/-- Witness for the amended C8: the untrained model yields `none` and the
trained `mC3` yields the empty table on the all-skipped census `univC8`. -/
theorem generate_untrained_none_skipped_empty_witness :
    generate none univC8 "Grupo" "Cantidad" wSample = none
    ∧ generate (some mC3) univC8 "Grupo" "Cantidad" wSample = some [] := by
  have h := generate_untrained_none_skipped_empty univC8 "Grupo" "Cantidad" wSample
  exact ⟨h.1, h.2 mC3 (by decide)⟩

/-- C9: the augmentation-mode entry point shares the trained model, and when
the requested total universe size is at most the real sample size the
shortfall is zero, so the real sample is returned unchanged with no
synthetic rows appended. -/
theorem augment_returns_real_sample_when_total_le
    (m : Model) (realSample : List AugIndividual) (total : Nat)
    (sampleSeg sampleProf : Dist → Nat → String)
    (h : total ≤ realSample.length) :
    generate_augmented m realSample total sampleSeg sampleProf = realSample := by
  unfold generate_augmented
  rw [Nat.sub_eq_zero_of_le h]
  simp

/-- Witness for C9 on a concrete real sample of two respondents and a
requested total of one. -/
theorem augment_returns_real_sample_witness :
    1 ≤ realW.length
    ∧ generate_augmented mC3 realW 1 wSample wSample = realW :=
  ⟨by decide,
    augment_returns_real_sample_when_total_le mC3 realW 1 wSample wSample
      (by decide)⟩

/-- C10: quantity cleanup removes every `'.'` and `','` before coercion, so
`"10.5"` parses as 105 — not 10 — and `"1,000"` as 1000; generation on the
concrete census `univC10` accordingly produces 105 and 1000 individuals for
the two entries. -/
theorem quantity_parse_strips_separators :
    parsePyQty "10.5" = some 105
    ∧ parsePyQty "10.5" ≠ some 10
    ∧ parsePyQty "1,000" = some 1000
    ∧ (genEntry mC3 univC10 "Grupo" "Cantidad" wSample
        [some "Fútbol Infantil", some "10.5"]).length = 105
    ∧ (genEntry mC3 univC10 "Grupo" "Cantidad" wSample
        [some "Zumba", some "1,000"]).length = 1000 := by
  refine ⟨by decide, by decide, by decide, ?_, ?_⟩
  · have hok := selectDist_ok dfC3 "Rama" "NPS" ["Texto"] mC3 rfl (by decide)
      (pyStr (some "Fútbol Infantil"))
    have he := genEntry_count_eq mC3 univC10 "Grupo" "Cantidad" wSample
      [some "Fútbol Infantil", some "10.5"] (some "Fútbol Infantil")
      (some "10.5") 105 rfl rfl (by decide) (by decide) hok
    rw [he, List.length_map, List.length_range]
    rfl
  · have hok := selectDist_ok dfC3 "Rama" "NPS" ["Texto"] mC3 rfl (by decide)
      (pyStr (some "Zumba"))
    have he := genEntry_count_eq mC3 univC10 "Grupo" "Cantidad" wSample
      [some "Zumba", some "1,000"] (some "Zumba") (some "1,000") 1000 rfl rfl
      (by decide) (by decide) hok
    rw [he, List.length_map, List.length_range]
    rfl

end CDT
